import Mathlib

/-!
Verification of the Pipedrive API client (activities and webhooks resource
modules) against its specification.

The resource modules under verification are thin consumers of a shared
request builder (`NewRequest`) and response decoder (`Do`).  Those two are
kept abstract here: every service method is parameterised by a `Client`
record holding the builder and decoder behaviours, and each method records
an event trace of the builder and decoder invocations it performs, so that
theorems can speak about which requests are built (verb, path, query
options, body) and how often the decoder runs.
-/

/-- HTTP method constants, as in Go's net/http package. -/
def MethodGet : String := "GET"

def MethodPost : String := "POST"

def MethodPut : String := "PUT"

def MethodDelete : String := "DELETE"

/-- Modelled from the spec: `PaginationParameters` is the repository's
pagination options struct (not under src/), carrying the query pagination
params `limit` and `cursor`. -/
structure PaginationParameters where
  Limit : Int
  Cursor : String
deriving DecidableEq, Repr

/-- Options for `ActivitiesService.Create` and `ActivitiesService.Update`,
from the source.  The `interface\x7b\x7d`-typed `Participants` field is
modelled opaquely as an optional string; no claim inspects its value. -/
structure ActivitiesCreateOptions where
  Subject : String
  Done : Nat
  «Type» : String
  DueDate : String
  DueTime : String
  Duration : String
  UserID : Nat
  DealID : Nat
  PersonID : Nat
  Participants : Option String
  OrgID : Nat
deriving DecidableEq, Repr

/-- Options for `WebhooksService.Create`, from the source.  The
`EventAction` and `EventObject` field types are string-valued enums of the
repository not under src/; they are modelled as strings. -/
structure WebhooksCreateOptions where
  SubscriptionUrl : String
  EventAction : String
  DealProbability : String
  UserId : Nat
  HttpAuthUser : String
  HttpAuthPassword : String
deriving DecidableEq, Repr

/-- Modelled from the spec: `DeleteMultipleOptions` is the repository struct
(not under src/) carrying the comma-separated ID filter for bulk delete. -/
structure DeleteMultipleOptions where
  Ids : String
deriving DecidableEq, Repr

/-- Modelled from the spec: `arrayToString` is the repository helper (not
under src/) that joins an ID list into a comma-separated string, rendering
each integer in decimal. -/
def arrayToString (a : List Int) (delim : String) : String :=
  String.intercalate delim (a.map toString)

/-- A list of integer IDs, as taken by `ActivitiesService.DeleteMultiple`.
Named so that it stays unambiguous inside declarations of the
`ActivitiesService` namespace, where a bare `List` would resolve to the
`List` method. -/
abbrev IntList := List Int

/-- The values the resource modules pass to the request builder as query
options or body. -/
inductive GoVal
  | pagination (p : PaginationParameters)
  | activitiesCreate (o : ActivitiesCreateOptions)
  | deleteMultiple (o : DeleteMultipleOptions)
  | webhooksCreate (o : WebhooksCreateOptions)
deriving DecidableEq, Repr

/-- Events recorded while a service method runs: one `newRequestCall` per
invocation of the request builder with its arguments, and one `doCall` per
invocation of the response decoder, remembering whether the request handed
to the decoder was non-nil. -/
inductive Ev
  | newRequestCall (m : String) (url : String) (opts bd : Option GoVal)
  | doCall (reqNonNil : Bool)
deriving DecidableEq, Repr

/-- Whether an event is a decoder invocation. -/
def Ev.isDo : Ev → Bool
  | .doCall _ => true
  | _ => false

/-- Number of decoder invocations in a trace. -/
def doCount (t : List Ev) : Nat :=
  (t.filter Ev.isDo).length

/-- Abstract client: the shared request builder `NewRequest` and response
decoder `Do`.  `newRequest` either fails with an error or yields a request;
`doCall` takes the (possibly nil) request and yields raw response metadata
together with either an error or the decoded record stored into the typed
destination (possibly still nil). -/
structure Client (Req Resp Err α : Type) where
  newRequest : String → String → Option GoVal → Option GoVal → Except Err Req
  doCall : Option Req → Option Resp × Except Err (Option α)

/-- Result of a service method returning a typed record: the decoded record,
raw response metadata, error, and the event trace. -/
structure MethodResult (Resp Err α : Type) where
  record : Option α
  resp : Option Resp
  err : Option Err
  trace : List Ev

/-- Result of a service method returning only response metadata and error. -/
structure SimpleResult (Resp Err : Type) where
  resp : Option Resp
  err : Option Err
  trace : List Ev

/-- `ActivitiesService.Summary`: GET /activities/summary, early return on a
builder error, one decoder call otherwise. -/
def ActivitiesService.Summary {Req Resp Err α : Type}
    (c : Client Req Resp Err α) : MethodResult Resp Err α :=
  let ev := Ev.newRequestCall MethodGet "/activities/summary" none none
  match c.newRequest MethodGet "/activities/summary" none none with
  | .error e => ⟨none, none, some e, [ev]⟩
  | .ok req =>
    let r := c.doCall (some req)
    match r.2 with
    | .error e => ⟨none, r.1, some e, [ev, .doCall true]⟩
    | .ok rec => ⟨rec, r.1, none, [ev, .doCall true]⟩

/-- `ActivitiesService.List`: GET /activities/collection, passing the
pagination options exactly when `opts.Limit > 0 || len(opts.Cursor) != 0`.
Faithful to the source, the builder error is never checked: `err` is
reassigned by the `Do` call, which runs even when the request is nil. -/
def ActivitiesService.List {Req Resp Err α : Type}
    (c : Client Req Resp Err α) (opts : PaginationParameters) :
    MethodResult Resp Err α :=
  let optsArg : Option GoVal :=
    if 0 < opts.Limit ∨ opts.Cursor.length ≠ 0 then some (.pagination opts)
    else none
  let nr := c.newRequest MethodGet "/activities/collection" optsArg none
  let req : Option Req := match nr with | .ok r => some r | .error _ => none
  let ev := Ev.newRequestCall MethodGet "/activities/collection" optsArg none
  let r := c.doCall req
  match r.2 with
  | .error e => ⟨none, r.1, some e, [ev, .doCall req.isSome]⟩
  | .ok rec => ⟨rec, r.1, none, [ev, .doCall req.isSome]⟩

/-- `ActivitiesService.GetByID`: GET /activities/{id}. -/
def ActivitiesService.GetByID {Req Resp Err α : Type}
    (c : Client Req Resp Err α) (id : Int) : MethodResult Resp Err α :=
  let uri := "/activities/" ++ toString id
  let ev := Ev.newRequestCall MethodGet uri none none
  match c.newRequest MethodGet uri none none with
  | .error e => ⟨none, none, some e, [ev]⟩
  | .ok req =>
    let r := c.doCall (some req)
    match r.2 with
    | .error e => ⟨none, r.1, some e, [ev, .doCall true]⟩
    | .ok rec => ⟨rec, r.1, none, [ev, .doCall true]⟩

/-- `ActivitiesService.Create`: POST /activities with the options as JSON
body. -/
def ActivitiesService.Create {Req Resp Err α : Type}
    (c : Client Req Resp Err α) (opt : ActivitiesCreateOptions) :
    MethodResult Resp Err α :=
  let ev := Ev.newRequestCall MethodPost "/activities" none
    (some (.activitiesCreate opt))
  match c.newRequest MethodPost "/activities" none
      (some (.activitiesCreate opt)) with
  | .error e => ⟨none, none, some e, [ev]⟩
  | .ok req =>
    let r := c.doCall (some req)
    match r.2 with
    | .error e => ⟨none, r.1, some e, [ev, .doCall true]⟩
    | .ok rec => ⟨rec, r.1, none, [ev, .doCall true]⟩

/-- `ActivitiesService.Update`: PUT /activities/{id} with the options passed
as the query-options argument of the builder and a nil body. -/
def ActivitiesService.Update {Req Resp Err α : Type}
    (c : Client Req Resp Err α) (id : Int) (opt : ActivitiesCreateOptions) :
    MethodResult Resp Err α :=
  let uri := "/activities/" ++ toString id
  let ev := Ev.newRequestCall MethodPut uri (some (.activitiesCreate opt)) none
  match c.newRequest MethodPut uri (some (.activitiesCreate opt)) none with
  | .error e => ⟨none, none, some e, [ev]⟩
  | .ok req =>
    let r := c.doCall (some req)
    match r.2 with
    | .error e => ⟨none, r.1, some e, [ev, .doCall true]⟩
    | .ok rec => ⟨rec, r.1, none, [ev, .doCall true]⟩

/-- `ActivitiesService.DeleteMultiple`: DELETE /activities with the joined
ID list as the `Ids` filter in the query-options argument. -/
def ActivitiesService.DeleteMultiple {Req Resp Err α : Type}
    (c : Client Req Resp Err α) (ids : IntList) : SimpleResult Resp Err :=
  let optsArg : Option GoVal := some (.deleteMultiple ⟨arrayToString ids ","⟩)
  let ev := Ev.newRequestCall MethodDelete "/activities" optsArg none
  match c.newRequest MethodDelete "/activities" optsArg none with
  | .error e => ⟨none, some e, [ev]⟩
  | .ok req =>
    let r := c.doCall (some req)
    match r.2 with
    | .error e => ⟨r.1, some e, [ev, .doCall true]⟩
    | .ok _ => ⟨r.1, none, [ev, .doCall true]⟩

/-- `ActivitiesService.Delete`: DELETE /activities/{id}. -/
def ActivitiesService.Delete {Req Resp Err α : Type}
    (c : Client Req Resp Err α) (id : Int) : SimpleResult Resp Err :=
  let uri := "/activities/" ++ toString id
  let ev := Ev.newRequestCall MethodDelete uri none none
  match c.newRequest MethodDelete uri none none with
  | .error e => ⟨none, some e, [ev]⟩
  | .ok req =>
    let r := c.doCall (some req)
    match r.2 with
    | .error e => ⟨r.1, some e, [ev, .doCall true]⟩
    | .ok _ => ⟨r.1, none, [ev, .doCall true]⟩

/-- `WebhooksService.List`: GET /webhooks, early return on a builder error. -/
def WebhooksService.List {Req Resp Err α : Type}
    (c : Client Req Resp Err α) : MethodResult Resp Err α :=
  let ev := Ev.newRequestCall MethodGet "/webhooks" none none
  match c.newRequest MethodGet "/webhooks" none none with
  | .error e => ⟨none, none, some e, [ev]⟩
  | .ok req =>
    let r := c.doCall (some req)
    match r.2 with
    | .error e => ⟨none, r.1, some e, [ev, .doCall true]⟩
    | .ok rec => ⟨rec, r.1, none, [ev, .doCall true]⟩

/-- `WebhooksService.Create`: POST /webhooks with the options as JSON body. -/
def WebhooksService.Create {Req Resp Err α : Type}
    (c : Client Req Resp Err α) (opt : WebhooksCreateOptions) :
    MethodResult Resp Err α :=
  let ev := Ev.newRequestCall MethodPost "/webhooks" none
    (some (.webhooksCreate opt))
  match c.newRequest MethodPost "/webhooks" none
      (some (.webhooksCreate opt)) with
  | .error e => ⟨none, none, some e, [ev]⟩
  | .ok req =>
    let r := c.doCall (some req)
    match r.2 with
    | .error e => ⟨none, r.1, some e, [ev, .doCall true]⟩
    | .ok rec => ⟨rec, r.1, none, [ev, .doCall true]⟩

/-- `WebhooksService.Delete`: DELETE /webhooks/{id}. -/
def WebhooksService.Delete {Req Resp Err α : Type}
    (c : Client Req Resp Err α) (id : Int) : SimpleResult Resp Err :=
  let uri := "/webhooks/" ++ toString id
  let ev := Ev.newRequestCall MethodDelete uri none none
  match c.newRequest MethodDelete uri none none with
  | .error e => ⟨none, some e, [ev]⟩
  | .ok req =>
    let r := c.doCall (some req)
    match r.2 with
    | .error e => ⟨r.1, some e, [ev, .doCall true]⟩
    | .ok _ => ⟨r.1, none, [ev, .doCall true]⟩

/-- Modelled from the spec: the request builder (not under src/) encodes
`PaginationParameters` into query-string pairs, attaching `limit` when
positive and `cursor` when non-empty (spec: query pagination params
`limit` and `cursor`, omitted when pagination is not requested). -/
def encodePaginationQuery (p : PaginationParameters) : List (String × String) :=
  (if 0 < p.Limit then [("limit", toString p.Limit)] else []) ++
  (if p.Cursor ≠ "" then [("cursor", p.Cursor)] else [])

/-- A struct field as seen by Go's encoding/json: the Go field name, the
json tag name when one is present, and whether `omitempty` is set. -/
structure JField where
  goName : String
  jsonTag : Option String
  omitempty : Bool
deriving DecidableEq, Repr

/-- The JSON key a field would be serialized under: its json tag name, or
the Go field name when no json tag is present. -/
def effName (f : JField) : String := f.jsonTag.getD f.goName

/-- The fields of `ActivitiesCreateOptions` with their json tags, from the
source: `UserID` and `DealID` both carry the tag `user_id`. -/
def ActivitiesCreateOptionsFields : List JField :=
  [⟨"Subject", some "subject", true⟩,
   ⟨"Done", some "done", true⟩,
   ⟨"Type", some "type", true⟩,
   ⟨"DueDate", some "due_date", true⟩,
   ⟨"DueTime", some "due_time", true⟩,
   ⟨"Duration", some "duration", true⟩,
   ⟨"UserID", some "user_id", true⟩,
   ⟨"DealID", some "user_id", true⟩,
   ⟨"PersonID", some "person_id", true⟩,
   ⟨"Participants", some "participants", true⟩,
   ⟨"OrgID", some "org_id", true⟩]

/-- The fields of `WebhooksCreateOptions`, from the source: only `url`
struct tags are declared, so none of the fields has a json tag. -/
def WebhooksCreateOptionsFields : List JField :=
  [⟨"SubscriptionUrl", none, false⟩,
   ⟨"EventAction", none, false⟩,
   ⟨"DealProbability", none, false⟩,
   ⟨"UserId", none, false⟩,
   ⟨"HttpAuthUser", none, false⟩,
   ⟨"HttpAuthPassword", none, false⟩]

/-- Go encoding/json visibility rule for a flat struct: among the fields
sharing one effective JSON name, a field is serialized iff it is the only
one, or it is the only json-tagged one. -/
def visibleFields (fs : List JField) : List JField :=
  fs.filter fun f =>
    let same := fs.filter fun g => effName g == effName f
    same.length == 1 ||
      (f.jsonTag.isSome && (same.filter fun g => g.jsonTag.isSome).length == 1)

/-- The fields actually emitted for one value, given a zero-ness oracle on
the Go field names: visible fields, minus `omitempty` fields whose value is
the zero value. -/
def encodedFields (fs : List JField) (isZero : String → Bool) : List JField :=
  (visibleFields fs).filter fun f => !(f.omitempty && isZero f.goName)

/-- The JSON object keys emitted for one value. -/
def encodedKeys (fs : List JField) (isZero : String → Bool) : List String :=
  (encodedFields fs isZero).map effName

/-- A client whose builder and decoder always succeed, storing no record. -/
def okClient : Client Unit Unit String Unit :=
  ⟨fun _ _ _ _ => .ok (), fun _ => (none, .ok none)⟩

/-- A client whose request builder always fails, and whose decoder fails
when invoked, as a real decoder would on a nil request. -/
def newRequestFailClient : Client Unit Unit String Unit :=
  ⟨fun _ _ _ _ => .error "invalid base URL",
   fun _ => (none, .error "Do: nil request")⟩

/-- A client whose builder succeeds and whose decoder always reports an
error, as on a non-2xx response. -/
def doFailClient : Client Unit Unit String Unit :=
  ⟨fun _ _ _ _ => .ok (), fun _ => (none, .error "server returned 500")⟩

/-- The zero value of `ActivitiesCreateOptions`: every field at its Go zero
value, so nothing about it requests pagination. -/
def zeroCreateOptions : ActivitiesCreateOptions :=
  ⟨"", 0, "", "", "", "", 0, 0, 0, none, 0⟩

theorem mem_visible_of_mem_encoded {fs : List JField} {isZero : String → Bool}
    {f : JField} (h : f ∈ encodedFields fs isZero) : f ∈ visibleFields fs :=
  List.mem_of_mem_filter h

theorem mem_visible_keys_of_mem_encodedKeys {fs : List JField}
    {isZero : String → Bool} {k : String} (h : k ∈ encodedKeys fs isZero) :
    k ∈ (visibleFields fs).map effName := by
  obtain ⟨f, hf, rfl⟩ := List.mem_map.mp h
  exact List.mem_map_of_mem _ (mem_visible_of_mem_encoded hf)

theorem intercalate_go_append (x y s : String) (l : List String) :
    String.intercalate.go (x ++ y) s l = x ++ String.intercalate.go y s l := by
  induction l generalizing y with
  | nil => rfl
  | cons a as ih =>
    simp only [String.intercalate.go]
    rw [String.append_assoc x y s, String.append_assoc x (y ++ s) a]
    exact ih ((y ++ s) ++ a)

theorem arrayToString_cons (x y : Int) (ys : List Int) :
    arrayToString (x :: y :: ys) "," =
      toString x ++ "," ++ arrayToString (y :: ys) "," := by
  simp only [arrayToString, List.map_cons, String.intercalate,
    String.intercalate.go]
  rw [intercalate_go_append]

theorem arrayToString_singleton (x : Int) : arrayToString [x] "," = toString x := rfl

/-- Claim C6: `GetByID` builds a GET request to `/activities/` followed by
the decimal rendering of the id, `Delete` a DELETE request to the same
path, and `WebhooksService.Delete` a DELETE request to `/webhooks/`
followed by the id. -/
theorem getByID_delete_verb_and_path {Req Resp Err α : Type}
    (c : Client Req Resp Err α) (id : Int) :
    (ActivitiesService.GetByID c id).trace.head? =
      some (Ev.newRequestCall MethodGet ("/activities/" ++ toString id)
        none none) ∧
    (ActivitiesService.Delete c id).trace.head? =
      some (Ev.newRequestCall MethodDelete ("/activities/" ++ toString id)
        none none) ∧
    (WebhooksService.Delete c id).trace.head? =
      some (Ev.newRequestCall MethodDelete ("/webhooks/" ++ toString id)
        none none) := by
  refine ⟨?_, ?_, ?_⟩
  · simp only [ActivitiesService.GetByID]
    split
    · rfl
    · split <;> rfl
  · simp only [ActivitiesService.Delete]
    split
    · rfl
    · split <;> rfl
  · simp only [WebhooksService.Delete]
    split
    · rfl
    · split <;> rfl

theorem summary_head {Req Resp Err α : Type} (c : Client Req Resp Err α) :
    (ActivitiesService.Summary c).trace.head? =
      some (Ev.newRequestCall MethodGet "/activities/summary" none none) := by
  simp only [ActivitiesService.Summary]
  split
  · rfl
  · split <;> rfl

theorem list_head {Req Resp Err α : Type} (c : Client Req Resp Err α)
    (opts : PaginationParameters) :
    (ActivitiesService.List c opts).trace.head? =
      some (Ev.newRequestCall MethodGet "/activities/collection"
        (if 0 < opts.Limit ∨ opts.Cursor.length ≠ 0 then
          some (GoVal.pagination opts) else none) none) := by
  simp only [ActivitiesService.List]
  split <;> rfl

theorem getByID_head {Req Resp Err α : Type} (c : Client Req Resp Err α)
    (id : Int) :
    (ActivitiesService.GetByID c id).trace.head? =
      some (Ev.newRequestCall MethodGet ("/activities/" ++ toString id)
        none none) := by
  simp only [ActivitiesService.GetByID]
  split
  · rfl
  · split <;> rfl

theorem create_head {Req Resp Err α : Type} (c : Client Req Resp Err α)
    (opt : ActivitiesCreateOptions) :
    (ActivitiesService.Create c opt).trace.head? =
      some (Ev.newRequestCall MethodPost "/activities" none
        (some (GoVal.activitiesCreate opt))) := by
  simp only [ActivitiesService.Create]
  split
  · rfl
  · split <;> rfl

theorem update_head {Req Resp Err α : Type} (c : Client Req Resp Err α)
    (id : Int) (opt : ActivitiesCreateOptions) :
    (ActivitiesService.Update c id opt).trace.head? =
      some (Ev.newRequestCall MethodPut ("/activities/" ++ toString id)
        (some (GoVal.activitiesCreate opt)) none) := by
  simp only [ActivitiesService.Update]
  split
  · rfl
  · split <;> rfl

theorem deleteMultiple_head {Req Resp Err α : Type} (c : Client Req Resp Err α)
    (ids : IntList) :
    (ActivitiesService.DeleteMultiple c ids).trace.head? =
      some (Ev.newRequestCall MethodDelete "/activities"
        (some (GoVal.deleteMultiple ⟨arrayToString ids ","⟩)) none) := by
  simp only [ActivitiesService.DeleteMultiple]
  split
  · rfl
  · split <;> rfl

theorem delete_head {Req Resp Err α : Type} (c : Client Req Resp Err α)
    (id : Int) :
    (ActivitiesService.Delete c id).trace.head? =
      some (Ev.newRequestCall MethodDelete ("/activities/" ++ toString id)
        none none) := by
  simp only [ActivitiesService.Delete]
  split
  · rfl
  · split <;> rfl

theorem webhooksList_head {Req Resp Err α : Type} (c : Client Req Resp Err α) :
    (WebhooksService.List c).trace.head? =
      some (Ev.newRequestCall MethodGet "/webhooks" none none) := by
  simp only [WebhooksService.List]
  split
  · rfl
  · split <;> rfl

theorem webhooksCreate_head {Req Resp Err α : Type} (c : Client Req Resp Err α)
    (wopt : WebhooksCreateOptions) :
    (WebhooksService.Create c wopt).trace.head? =
      some (Ev.newRequestCall MethodPost "/webhooks" none
        (some (GoVal.webhooksCreate wopt))) := by
  simp only [WebhooksService.Create]
  split
  · rfl
  · split <;> rfl

theorem webhooksDelete_head {Req Resp Err α : Type} (c : Client Req Resp Err α)
    (id : Int) :
    (WebhooksService.Delete c id).trace.head? =
      some (Ev.newRequestCall MethodDelete ("/webhooks/" ++ toString id)
        none none) := by
  simp only [WebhooksService.Delete]
  split
  · rfl
  · split <;> rfl

theorem summary_doCount {Req Resp Err α : Type} (c : Client Req Resp Err α) :
    doCount (ActivitiesService.Summary c).trace ≤ 1 := by
  simp only [ActivitiesService.Summary]
  split
  · exact Nat.zero_le 1
  · split <;> exact Nat.le_refl 1

theorem list_doCount {Req Resp Err α : Type} (c : Client Req Resp Err α)
    (opts : PaginationParameters) :
    doCount (ActivitiesService.List c opts).trace ≤ 1 := by
  simp only [ActivitiesService.List]
  split <;> exact Nat.le_refl 1

theorem getByID_doCount {Req Resp Err α : Type} (c : Client Req Resp Err α)
    (id : Int) : doCount (ActivitiesService.GetByID c id).trace ≤ 1 := by
  simp only [ActivitiesService.GetByID]
  split
  · exact Nat.zero_le 1
  · split <;> exact Nat.le_refl 1

theorem create_doCount {Req Resp Err α : Type} (c : Client Req Resp Err α)
    (opt : ActivitiesCreateOptions) :
    doCount (ActivitiesService.Create c opt).trace ≤ 1 := by
  simp only [ActivitiesService.Create]
  split
  · exact Nat.zero_le 1
  · split <;> exact Nat.le_refl 1

theorem update_doCount {Req Resp Err α : Type} (c : Client Req Resp Err α)
    (id : Int) (opt : ActivitiesCreateOptions) :
    doCount (ActivitiesService.Update c id opt).trace ≤ 1 := by
  simp only [ActivitiesService.Update]
  split
  · exact Nat.zero_le 1
  · split <;> exact Nat.le_refl 1

theorem deleteMultiple_doCount {Req Resp Err α : Type}
    (c : Client Req Resp Err α) (ids : IntList) :
    doCount (ActivitiesService.DeleteMultiple c ids).trace ≤ 1 := by
  simp only [ActivitiesService.DeleteMultiple]
  split
  · exact Nat.zero_le 1
  · split <;> exact Nat.le_refl 1

theorem delete_doCount {Req Resp Err α : Type} (c : Client Req Resp Err α)
    (id : Int) : doCount (ActivitiesService.Delete c id).trace ≤ 1 := by
  simp only [ActivitiesService.Delete]
  split
  · exact Nat.zero_le 1
  · split <;> exact Nat.le_refl 1

theorem webhooksList_doCount {Req Resp Err α : Type}
    (c : Client Req Resp Err α) :
    doCount (WebhooksService.List c).trace ≤ 1 := by
  simp only [WebhooksService.List]
  split
  · exact Nat.zero_le 1
  · split <;> exact Nat.le_refl 1

theorem webhooksCreate_doCount {Req Resp Err α : Type}
    (c : Client Req Resp Err α) (wopt : WebhooksCreateOptions) :
    doCount (WebhooksService.Create c wopt).trace ≤ 1 := by
  simp only [WebhooksService.Create]
  split
  · exact Nat.zero_le 1
  · split <;> exact Nat.le_refl 1

theorem webhooksDelete_doCount {Req Resp Err α : Type}
    (c : Client Req Resp Err α) (id : Int) :
    doCount (WebhooksService.Delete c id).trace ≤ 1 := by
  simp only [WebhooksService.Delete]
  split
  · exact Nat.zero_le 1
  · split <;> exact Nat.le_refl 1

theorem summary_doErr {Req Resp Err α : Type} (c : Client Req Resp Err α)
    (e : Err) (h : ∀ r, (c.doCall r).2 = Except.error e) :
    (ActivitiesService.Summary c).record = none ∧
      (ActivitiesService.Summary c).err ≠ none := by
  simp only [ActivitiesService.Summary]
  split
  · exact ⟨rfl, by simp⟩
  · simp only [h]
    simp

theorem list_doErr {Req Resp Err α : Type} (c : Client Req Resp Err α)
    (opts : PaginationParameters) (e : Err)
    (h : ∀ r, (c.doCall r).2 = Except.error e) :
    (ActivitiesService.List c opts).record = none ∧
      (ActivitiesService.List c opts).err ≠ none := by
  simp only [ActivitiesService.List, h]
  simp

theorem getByID_doErr {Req Resp Err α : Type} (c : Client Req Resp Err α)
    (id : Int) (e : Err) (h : ∀ r, (c.doCall r).2 = Except.error e) :
    (ActivitiesService.GetByID c id).record = none ∧
      (ActivitiesService.GetByID c id).err ≠ none := by
  simp only [ActivitiesService.GetByID]
  split
  · exact ⟨rfl, by simp⟩
  · simp only [h]
    simp

theorem create_doErr {Req Resp Err α : Type} (c : Client Req Resp Err α)
    (opt : ActivitiesCreateOptions) (e : Err)
    (h : ∀ r, (c.doCall r).2 = Except.error e) :
    (ActivitiesService.Create c opt).record = none ∧
      (ActivitiesService.Create c opt).err ≠ none := by
  simp only [ActivitiesService.Create]
  split
  · exact ⟨rfl, by simp⟩
  · simp only [h]
    simp

theorem update_doErr {Req Resp Err α : Type} (c : Client Req Resp Err α)
    (id : Int) (opt : ActivitiesCreateOptions) (e : Err)
    (h : ∀ r, (c.doCall r).2 = Except.error e) :
    (ActivitiesService.Update c id opt).record = none ∧
      (ActivitiesService.Update c id opt).err ≠ none := by
  simp only [ActivitiesService.Update]
  split
  · exact ⟨rfl, by simp⟩
  · simp only [h]
    simp

theorem string_length_ne_zero (s : String) : s.length ≠ 0 ↔ s ≠ "" := by
  cases s with
  | mk data => simp [String.length, String.ext_iff]

/-- Claim C6 witness: the verbs and paths at id 7. -/
theorem getByID_delete_verb_and_path_witness :
    (ActivitiesService.GetByID okClient 7).trace.head? =
      some (Ev.newRequestCall MethodGet ("/activities/" ++ toString (7 : Int))
        none none) ∧
    (ActivitiesService.Delete okClient 7).trace.head? =
      some (Ev.newRequestCall MethodDelete ("/activities/" ++ toString (7 : Int))
        none none) ∧
    (WebhooksService.Delete okClient 7).trace.head? =
      some (Ev.newRequestCall MethodDelete ("/webhooks/" ++ toString (7 : Int))
        none none) :=
  getByID_delete_verb_and_path okClient 7

/-- Claim C1: the code violates the claim at `ActivitiesService.List`.  At a
client whose request builder fails, `List` still invokes the response
decoder — on a nil request — and returns the decoder's error in place of
the builder's, whereas `Summary` (like every other operation) returns the
builder error and never calls the decoder. -/
theorem list_ignores_newRequest_error :
    (ActivitiesService.List newRequestFailClient ⟨0, ""⟩).err =
      some "Do: nil request" ∧
    (ActivitiesService.List newRequestFailClient ⟨0, ""⟩).trace =
      [Ev.newRequestCall MethodGet "/activities/collection" none none,
       Ev.doCall false] ∧
    doCount (ActivitiesService.List newRequestFailClient ⟨0, ""⟩).trace = 1 ∧
    (ActivitiesService.Summary newRequestFailClient).err =
      some "invalid base URL" ∧
    (ActivitiesService.Summary newRequestFailClient).trace =
      [Ev.newRequestCall MethodGet "/activities/summary" none none] :=
  ⟨rfl, rfl, rfl, rfl, rfl⟩

/-- Claim C2 counterexample: `Update` at id 1 with all-zero options — a
call in which no pagination is requested anywhere — still hands the
options struct to the request builder as its query-options argument, which
is not `none`. -/
theorem update_attaches_query_without_pagination :
    (ActivitiesService.Update okClient 1 zeroCreateOptions).trace.head? =
      some (Ev.newRequestCall MethodPut "/activities/1"
        (some (GoVal.activitiesCreate zeroCreateOptions)) none) ∧
    some (GoVal.activitiesCreate zeroCreateOptions) ≠ (none : Option GoVal) :=
  ⟨rfl, by simp⟩

/-- Claim C2 (amended): only `ActivitiesService.List` conditions its
query-options argument on pagination; `Update` and `DeleteMultiple` always
attach their options as query parameters, and every other operation passes
no query options at all. -/
theorem query_options_exactly_list_conditional {Req Resp Err α : Type}
    (c : Client Req Resp Err α) (opts : PaginationParameters) (id : Int)
    (opt : ActivitiesCreateOptions) (wopt : WebhooksCreateOptions)
    (ids : IntList) :
    (ActivitiesService.List c opts).trace.head? =
      some (Ev.newRequestCall MethodGet "/activities/collection"
        (if 0 < opts.Limit ∨ opts.Cursor.length ≠ 0 then
          some (GoVal.pagination opts) else none) none) ∧
    (ActivitiesService.Update c id opt).trace.head? =
      some (Ev.newRequestCall MethodPut ("/activities/" ++ toString id)
        (some (GoVal.activitiesCreate opt)) none) ∧
    (ActivitiesService.DeleteMultiple c ids).trace.head? =
      some (Ev.newRequestCall MethodDelete "/activities"
        (some (GoVal.deleteMultiple ⟨arrayToString ids ","⟩)) none) ∧
    (ActivitiesService.Summary c).trace.head? =
      some (Ev.newRequestCall MethodGet "/activities/summary" none none) ∧
    (ActivitiesService.GetByID c id).trace.head? =
      some (Ev.newRequestCall MethodGet ("/activities/" ++ toString id)
        none none) ∧
    (ActivitiesService.Create c opt).trace.head? =
      some (Ev.newRequestCall MethodPost "/activities" none
        (some (GoVal.activitiesCreate opt))) ∧
    (ActivitiesService.Delete c id).trace.head? =
      some (Ev.newRequestCall MethodDelete ("/activities/" ++ toString id)
        none none) ∧
    (WebhooksService.List c).trace.head? =
      some (Ev.newRequestCall MethodGet "/webhooks" none none) ∧
    (WebhooksService.Create c wopt).trace.head? =
      some (Ev.newRequestCall MethodPost "/webhooks" none
        (some (GoVal.webhooksCreate wopt))) ∧
    (WebhooksService.Delete c id).trace.head? =
      some (Ev.newRequestCall MethodDelete ("/webhooks/" ++ toString id)
        none none) :=
  ⟨list_head c opts, update_head c id opt, deleteMultiple_head c ids,
   summary_head c, getByID_head c id, create_head c opt, delete_head c id,
   webhooksList_head c, webhooksCreate_head c wopt, webhooksDelete_head c id⟩

/-- Claim C2 (amended) witness: the per-operation query-options behaviour
at concrete inputs. -/
theorem query_options_exactly_list_conditional_witness :
    (ActivitiesService.List okClient ⟨0, ""⟩).trace.head? =
      some (Ev.newRequestCall MethodGet "/activities/collection"
        (if 0 < (PaginationParameters.mk 0 "").Limit ∨
          (PaginationParameters.mk 0 "").Cursor.length ≠ 0 then
          some (GoVal.pagination ⟨0, ""⟩) else none) none) ∧
    (ActivitiesService.Update okClient 1 zeroCreateOptions).trace.head? =
      some (Ev.newRequestCall MethodPut ("/activities/" ++ toString (1 : Int))
        (some (GoVal.activitiesCreate zeroCreateOptions)) none) ∧
    (ActivitiesService.DeleteMultiple okClient [1, 2]).trace.head? =
      some (Ev.newRequestCall MethodDelete "/activities"
        (some (GoVal.deleteMultiple ⟨arrayToString [1, 2] ","⟩)) none) ∧
    (ActivitiesService.Summary okClient).trace.head? =
      some (Ev.newRequestCall MethodGet "/activities/summary" none none) ∧
    (ActivitiesService.GetByID okClient 1).trace.head? =
      some (Ev.newRequestCall MethodGet ("/activities/" ++ toString (1 : Int))
        none none) ∧
    (ActivitiesService.Create okClient zeroCreateOptions).trace.head? =
      some (Ev.newRequestCall MethodPost "/activities" none
        (some (GoVal.activitiesCreate zeroCreateOptions))) ∧
    (ActivitiesService.Delete okClient 1).trace.head? =
      some (Ev.newRequestCall MethodDelete ("/activities/" ++ toString (1 : Int))
        none none) ∧
    (WebhooksService.List okClient).trace.head? =
      some (Ev.newRequestCall MethodGet "/webhooks" none none) ∧
    (WebhooksService.Create okClient ⟨"", "", "", 0, "", ""⟩).trace.head? =
      some (Ev.newRequestCall MethodPost "/webhooks" none
        (some (GoVal.webhooksCreate ⟨"", "", "", 0, "", ""⟩))) ∧
    (WebhooksService.Delete okClient 1).trace.head? =
      some (Ev.newRequestCall MethodDelete ("/webhooks/" ++ toString (1 : Int))
        none none) :=
  query_options_exactly_list_conditional okClient ⟨0, ""⟩ 1 zeroCreateOptions
    ⟨"", "", "", 0, "", ""⟩ [1, 2]

/-- Claim C3: whenever the response decoder reports an error, `List`,
`GetByID`, `Create`, `Update` and `Summary` all return a nil decoded
record together with a non-nil error. -/
theorem do_error_returns_nil_record {Req Resp Err α : Type}
    (c : Client Req Resp Err α) (opts : PaginationParameters) (id : Int)
    (opt : ActivitiesCreateOptions) (e : Err)
    (h : ∀ r, (c.doCall r).2 = Except.error e) :
    ((ActivitiesService.List c opts).record = none ∧
      (ActivitiesService.List c opts).err ≠ none) ∧
    ((ActivitiesService.GetByID c id).record = none ∧
      (ActivitiesService.GetByID c id).err ≠ none) ∧
    ((ActivitiesService.Create c opt).record = none ∧
      (ActivitiesService.Create c opt).err ≠ none) ∧
    ((ActivitiesService.Update c id opt).record = none ∧
      (ActivitiesService.Update c id opt).err ≠ none) ∧
    ((ActivitiesService.Summary c).record = none ∧
      (ActivitiesService.Summary c).err ≠ none) :=
  ⟨list_doErr c opts e h, getByID_doErr c id e h, create_doErr c opt e h,
   update_doErr c id opt e h, summary_doErr c e h⟩

/-- Claim C3 witness: the property at a concrete client whose decoder
always fails, as on a non-2xx response. -/
theorem do_error_returns_nil_record_witness :
    ((ActivitiesService.List doFailClient ⟨0, ""⟩).record = none ∧
      (ActivitiesService.List doFailClient ⟨0, ""⟩).err ≠ none) ∧
    ((ActivitiesService.GetByID doFailClient 1).record = none ∧
      (ActivitiesService.GetByID doFailClient 1).err ≠ none) ∧
    ((ActivitiesService.Create doFailClient zeroCreateOptions).record = none ∧
      (ActivitiesService.Create doFailClient zeroCreateOptions).err ≠ none) ∧
    ((ActivitiesService.Update doFailClient 1 zeroCreateOptions).record = none ∧
      (ActivitiesService.Update doFailClient 1 zeroCreateOptions).err ≠ none) ∧
    ((ActivitiesService.Summary doFailClient).record = none ∧
      (ActivitiesService.Summary doFailClient).err ≠ none) :=
  do_error_returns_nil_record doFailClient ⟨0, ""⟩ 1 zeroCreateOptions
    "server returned 500" (fun _ => rfl)

/-- Claim C4: `List` hands the pagination options to the builder exactly
when the limit is positive or the cursor non-empty; with limit 0 and an
empty cursor the request is built with no query options at all, and the
builder's encoding of limit 50 attaches the pair limit=50. -/
theorem list_pagination_query {Req Resp Err α : Type}
    (c : Client Req Resp Err α) (opts : PaginationParameters) (cur : String) :
    (ActivitiesService.List c opts).trace.head? =
      some (Ev.newRequestCall MethodGet "/activities/collection"
        (if 0 < opts.Limit ∨ opts.Cursor ≠ "" then
          some (GoVal.pagination opts) else none) none) ∧
    (ActivitiesService.List c ⟨0, ""⟩).trace.head? =
      some (Ev.newRequestCall MethodGet "/activities/collection" none none) ∧
    ("limit", "50") ∈ encodePaginationQuery ⟨50, cur⟩ := by
  have hc : (0 < opts.Limit ∨ opts.Cursor.length ≠ 0) ↔
      (0 < opts.Limit ∨ opts.Cursor ≠ "") :=
    or_congr Iff.rfl (string_length_ne_zero opts.Cursor)
  refine ⟨?_, ?_, ?_⟩
  · rw [list_head c opts, if_congr hc rfl rfl]
  · rw [list_head c ⟨0, ""⟩, if_neg (by decide)]
  · show ("limit", "50") ∈
      (if (0 : Int) < 50 then [("limit", toString (50 : Int))] else []) ++
      (if cur ≠ "" then [("cursor", cur)] else [])
    refine List.mem_append_left _ ?_
    rw [if_pos (by decide : (0 : Int) < 50)]
    exact List.mem_singleton.mpr (by decide)

/-- Claim C4 witness: the pagination behaviour at concrete inputs. -/
theorem list_pagination_query_witness :
    (ActivitiesService.List okClient ⟨50, ""⟩).trace.head? =
      some (Ev.newRequestCall MethodGet "/activities/collection"
        (if 0 < (PaginationParameters.mk 50 "").Limit ∨
          (PaginationParameters.mk 50 "").Cursor ≠ "" then
          some (GoVal.pagination ⟨50, ""⟩) else none) none) ∧
    (ActivitiesService.List okClient ⟨0, ""⟩).trace.head? =
      some (Ev.newRequestCall MethodGet "/activities/collection" none none) ∧
    ("limit", "50") ∈ encodePaginationQuery ⟨50, "abc"⟩ :=
  list_pagination_query okClient ⟨50, ""⟩ "abc"

/-- Claim C5: `DeleteMultiple` sets the `Ids` filter to the decimal
renderings of the ids joined in order with commas and no spaces; on the
list 1, 2, 3 the filter is the string 1,2,3. -/
theorem deleteMultiple_ids_filter {Req Resp Err α : Type}
    (c : Client Req Resp Err α) (ids : IntList) (x y : Int) (ys : IntList) :
    (ActivitiesService.DeleteMultiple c ids).trace.head? =
      some (Ev.newRequestCall MethodDelete "/activities"
        (some (GoVal.deleteMultiple ⟨arrayToString ids ","⟩)) none) ∧
    arrayToString [x] "," = toString x ∧
    arrayToString (x :: y :: ys) "," =
      toString x ++ "," ++ arrayToString (y :: ys) "," ∧
    arrayToString [1, 2, 3] "," = "1,2,3" :=
  ⟨deleteMultiple_head c ids, arrayToString_singleton x,
   arrayToString_cons x y ys, rfl⟩

/-- Claim C5 witness: the ID filter at the list 1, 2, 3. -/
theorem deleteMultiple_ids_filter_witness :
    (ActivitiesService.DeleteMultiple okClient [1, 2, 3]).trace.head? =
      some (Ev.newRequestCall MethodDelete "/activities"
        (some (GoVal.deleteMultiple ⟨arrayToString [1, 2, 3] ","⟩)) none) ∧
    arrayToString [4] "," = toString (4 : Int) ∧
    arrayToString (4 :: 5 :: [6]) "," =
      toString (4 : Int) ++ "," ++ arrayToString (5 :: [6]) "," ∧
    arrayToString [1, 2, 3] "," = "1,2,3" :=
  deleteMultiple_ids_filter okClient [1, 2, 3] 4 5 [6]

/-- Claim C7: every operation of both services invokes the response
decoder at most once per call; none retries after a failure. -/
theorem decoder_invoked_at_most_once {Req Resp Err α : Type}
    (c : Client Req Resp Err α) (opts : PaginationParameters) (id : Int)
    (opt : ActivitiesCreateOptions) (wopt : WebhooksCreateOptions)
    (ids : IntList) :
    doCount (ActivitiesService.Summary c).trace ≤ 1 ∧
    doCount (ActivitiesService.List c opts).trace ≤ 1 ∧
    doCount (ActivitiesService.GetByID c id).trace ≤ 1 ∧
    doCount (ActivitiesService.Create c opt).trace ≤ 1 ∧
    doCount (ActivitiesService.Update c id opt).trace ≤ 1 ∧
    doCount (ActivitiesService.DeleteMultiple c ids).trace ≤ 1 ∧
    doCount (ActivitiesService.Delete c id).trace ≤ 1 ∧
    doCount (WebhooksService.List c).trace ≤ 1 ∧
    doCount (WebhooksService.Create c wopt).trace ≤ 1 ∧
    doCount (WebhooksService.Delete c id).trace ≤ 1 :=
  ⟨summary_doCount c, list_doCount c opts, getByID_doCount c id,
   create_doCount c opt, update_doCount c id opt,
   deleteMultiple_doCount c ids, delete_doCount c id,
   webhooksList_doCount c, webhooksCreate_doCount c wopt,
   webhooksDelete_doCount c id⟩

/-- Claim C7 witness: the decoder-call bound at a concrete failing client,
where the single attempt errors and is not retried. -/
theorem decoder_invoked_at_most_once_witness :
    doCount (ActivitiesService.Summary doFailClient).trace ≤ 1 ∧
    doCount (ActivitiesService.List doFailClient ⟨0, ""⟩).trace ≤ 1 ∧
    doCount (ActivitiesService.GetByID doFailClient 1).trace ≤ 1 ∧
    doCount (ActivitiesService.Create doFailClient zeroCreateOptions).trace ≤ 1 ∧
    doCount (ActivitiesService.Update doFailClient 1 zeroCreateOptions).trace ≤ 1 ∧
    doCount (ActivitiesService.DeleteMultiple doFailClient [1]).trace ≤ 1 ∧
    doCount (ActivitiesService.Delete doFailClient 1).trace ≤ 1 ∧
    doCount (WebhooksService.List doFailClient).trace ≤ 1 ∧
    doCount (WebhooksService.Create doFailClient ⟨"", "", "", 0, "", ""⟩).trace ≤ 1 ∧
    doCount (WebhooksService.Delete doFailClient 1).trace ≤ 1 :=
  decoder_invoked_at_most_once doFailClient ⟨0, ""⟩ 1 zeroCreateOptions
    ⟨"", "", "", 0, "", ""⟩ [1]

/-- Claim C8: `UserID` and `DealID` of `ActivitiesCreateOptions` both carry
the json tag user_id, so under Go's conflicting-tag rule the JSON body
`Create` hands to the builder contains neither a user_id key nor a deal_id
key for any options value, and the `DealID` field is never emitted under
any key. -/
theorem create_json_drops_user_id_and_deal_id {Req Resp Err α : Type}
    (c : Client Req Resp Err α) (opt : ActivitiesCreateOptions)
    (isZero : String → Bool) :
    (ActivitiesService.Create c opt).trace.head? =
      some (Ev.newRequestCall MethodPost "/activities" none
        (some (GoVal.activitiesCreate opt))) ∧
    "user_id" ∉ encodedKeys ActivitiesCreateOptionsFields isZero ∧
    "deal_id" ∉ encodedKeys ActivitiesCreateOptionsFields isZero ∧
    ∀ f ∈ encodedFields ActivitiesCreateOptionsFields isZero,
      f.goName ≠ "DealID" := by
  refine ⟨create_head c opt, ?_, ?_, ?_⟩
  · intro hk
    have hv := mem_visible_keys_of_mem_encodedKeys hk
    revert hv
    decide
  · intro hk
    have hv := mem_visible_keys_of_mem_encodedKeys hk
    revert hv
    decide
  · intro f hf
    have hv := mem_visible_of_mem_encoded hf
    have hall : ∀ g ∈ visibleFields ActivitiesCreateOptionsFields,
        g.goName ≠ "DealID" := by decide
    exact hall f hv

/-- Claim C8 witness: the dropped keys at the zero options value with a
zero-ness oracle reporting nothing as zero. -/
theorem create_json_drops_user_id_and_deal_id_witness :
    (ActivitiesService.Create okClient zeroCreateOptions).trace.head? =
      some (Ev.newRequestCall MethodPost "/activities" none
        (some (GoVal.activitiesCreate zeroCreateOptions))) ∧
    "user_id" ∉ encodedKeys ActivitiesCreateOptionsFields (fun _ => false) ∧
    "deal_id" ∉ encodedKeys ActivitiesCreateOptionsFields (fun _ => false) ∧
    ∀ f ∈ encodedFields ActivitiesCreateOptionsFields (fun _ => false),
      f.goName ≠ "DealID" :=
  create_json_drops_user_id_and_deal_id okClient zeroCreateOptions
    (fun _ => false)

/-- Claim C9: `WebhooksCreateOptions` declares only url struct tags, and
`WebhooksService.Create` passes it as the JSON body, so the serialized
keys are exactly the Go field names rather than snake_case parameter
names. -/
theorem webhooks_create_serializes_go_field_names {Req Resp Err α : Type}
    (c : Client Req Resp Err α) (wopt : WebhooksCreateOptions)
    (isZero : String → Bool) :
    (WebhooksService.Create c wopt).trace.head? =
      some (Ev.newRequestCall MethodPost "/webhooks" none
        (some (GoVal.webhooksCreate wopt))) ∧
    encodedKeys WebhooksCreateOptionsFields isZero =
      ["SubscriptionUrl", "EventAction", "DealProbability", "UserId",
       "HttpAuthUser", "HttpAuthPassword"] :=
  ⟨webhooksCreate_head c wopt, rfl⟩

/-- Claim C9 witness: the serialized keys at a concrete options value. -/
theorem webhooks_create_serializes_go_field_names_witness :
    (WebhooksService.Create okClient
        ⟨"https://example.com", "added", "deal", 9, "u", "p"⟩).trace.head? =
      some (Ev.newRequestCall MethodPost "/webhooks" none
        (some (GoVal.webhooksCreate
          ⟨"https://example.com", "added", "deal", 9, "u", "p"⟩))) ∧
    encodedKeys WebhooksCreateOptionsFields (fun _ => true) =
      ["SubscriptionUrl", "EventAction", "DealProbability", "UserId",
       "HttpAuthUser", "HttpAuthPassword"] :=
  webhooks_create_serializes_go_field_names okClient
    ⟨"https://example.com", "added", "deal", 9, "u", "p"⟩ (fun _ => true)

/-- Claim C10: `Update` hands the options struct to the builder as its
query-options argument with a nil body, while `Create` hands the same
options type as the JSON body with nil query options. -/
theorem update_options_as_query_create_as_body {Req Resp Err α : Type}
    (c : Client Req Resp Err α) (id : Int) (opt : ActivitiesCreateOptions) :
    (ActivitiesService.Update c id opt).trace.head? =
      some (Ev.newRequestCall MethodPut ("/activities/" ++ toString id)
        (some (GoVal.activitiesCreate opt)) none) ∧
    (ActivitiesService.Create c opt).trace.head? =
      some (Ev.newRequestCall MethodPost "/activities" none
        (some (GoVal.activitiesCreate opt))) :=
  ⟨update_head c id opt, create_head c opt⟩

/-- Claim C10 witness: the two serializations at id 3 and the zero options
value. -/
theorem update_options_as_query_create_as_body_witness :
    (ActivitiesService.Update okClient 3 zeroCreateOptions).trace.head? =
      some (Ev.newRequestCall MethodPut ("/activities/" ++ toString (3 : Int))
        (some (GoVal.activitiesCreate zeroCreateOptions)) none) ∧
    (ActivitiesService.Create okClient zeroCreateOptions).trace.head? =
      some (Ev.newRequestCall MethodPost "/activities" none
        (some (GoVal.activitiesCreate zeroCreateOptions))) :=
  update_options_as_query_create_as_body okClient 3 zeroCreateOptions
